import Mathlib

/-!
Shallow embedding of `src/index.ts` (observer pattern demo).

The TypeScript program defines a `Subject` interface implemented by
`ConcreteSubject` (a mutable integer `state` and a mutable array
`observers`), an `Observer` interface implemented by `ConcreteObserverA`
and `ConcreteObserverB`, and a driver script.

Modelling choices:
* JavaScript object identity: an observer is identified by a numeric
  identity `id` together with its concrete class (`A` or `B`); derived
  decidable equality plays the role of reference identity (`includes`
  and `indexOf` use SameValueZero, which is reference identity for
  objects).
* Console output and update invocations are recorded in an event trace
  (`Event.log` for each `console.log` line, `Event.updateCall o v` for
  the call `observer.update(this)` at the moment it happens, recording
  the argument passed).
* `update` may in principle mutate the subject it receives, so it
  returns the (possibly mutated) subject together with its trace;
  `notify` threads the subject through the update calls.
* A value implementing `Subject` that is not an instance of
  `ConcreteSubject` is modelled by `SubjectVal.foreign`, carrying an
  arbitrary integer as whatever state it may have; `instanceof` is the
  match on the `SubjectVal` constructor.
* `Math.random()` is modelled by a rational `r` with `0 ≤ r < 1`;
  `Math.floor(Math.random() * (10 + 1))` becomes `⌊r * 11⌋`.
-/

/-- The concrete class of an observer object (`ConcreteObserverA` or
`ConcreteObserverB`). -/
inductive ObserverKind where
  | A
  | B
deriving DecidableEq, Repr

/-- An observer object: a reference identity plus its concrete class. -/
structure Observer where
  id : Nat
  kind : ObserverKind
deriving DecidableEq, Repr

/-- The fields of a `ConcreteSubject` instance: `state: number = 0` and
`observers: Observer[] = []`. -/
structure ConcreteSubject where
  state : Int
  observers : List Observer
deriving DecidableEq, Repr

/-- A value implementing the `Subject` interface: either an instance of
`ConcreteSubject`, or any other implementation (not an instance of
`ConcreteSubject`), carrying whatever data it likes. -/
inductive SubjectVal where
  | concrete (s : ConcreteSubject)
  | foreign (data : Int)
deriving DecidableEq, Repr

/-- One observable event: a `console.log` line, or an invocation of
`update` on an observer with the subject value passed as argument. -/
inductive Event where
  | log (msg : String)
  | updateCall (o : Observer) (v : SubjectVal)
deriving DecidableEq, Repr

/-- `ConcreteObserverA.update` / `ConcreteObserverB.update`, dispatched
on the observer's class.  Each checks `subject instanceof ConcreteSubject`
and compares `subject.state` with 7; it returns the subject (which the
code never mutates) and the trace it printed. -/
def Observer.update (o : Observer) (subj : SubjectVal) : SubjectVal × List Event :=
  match o.kind with
  | ObserverKind.A =>
      match subj with
      | SubjectVal.concrete s =>
          if s.state < 7 then
            (subj, [Event.log ("ConcreteObserverA: Reacted to the event. New value: "
                      ++ toString s.state)])
          else
            (subj, [])
      | SubjectVal.foreign _ => (subj, [])
  | ObserverKind.B =>
      match subj with
      | SubjectVal.concrete s =>
          if s.state ≥ 7 then
            (subj, [Event.log ("ConcreteObserverB: Reacted to the event. New value: "
                      ++ toString s.state)])
          else
            (subj, [])
      | SubjectVal.foreign _ => (subj, [])

/-- `ConcreteSubject.subscribe`: membership test with `includes`
(identity), diagnostic and no-op when present, otherwise log and
`push`. -/
def ConcreteSubject.subscribe (s : ConcreteSubject) (o : Observer) :
    ConcreteSubject × List Event :=
  if s.observers.contains o then
    (s, [Event.log "Subject: Observer has been Subscribed already."])
  else
    ({ s with observers := s.observers ++ [o] },
     [Event.log "Subject: Subscribed an observer."])

/-- `ConcreteSubject.unsubscribe`: `indexOf` (first occurrence by
identity, `-1` when absent, here `none`); diagnostic and no-op when
absent, otherwise `splice(observerIndex, 1)` and log. -/
def ConcreteSubject.unsubscribe (s : ConcreteSubject) (o : Observer) :
    ConcreteSubject × List Event :=
  match s.observers.findIdx? (fun x => x == o) with
  | none => (s, [Event.log "Subject: Nonexistent observer."])
  | some i =>
      ({ s with observers := s.observers.eraseIdx i },
       [Event.log "Subject: Unsubscribed an observer."])

/-- The loop body of `notify`: call `observer.update(this)` on each
remaining observer in order, threading the subject through each call
(the call event records the argument that was passed). -/
def notifyFrom (s : ConcreteSubject) : List Observer → ConcreteSubject × List Event
  | [] => (s, [])
  | o :: rest =>
      let r := o.update (SubjectVal.concrete s)
      let s1 : ConcreteSubject :=
        match r.1 with
        | SubjectVal.concrete c => c
        | SubjectVal.foreign _ => s
      let rec2 := notifyFrom s1 rest
      (rec2.1, Event.updateCall o (SubjectVal.concrete s) :: (r.2 ++ rec2.2))

/-- `ConcreteSubject.notify`: log, then invoke `update(this)` on every
observer in the list, in order. -/
def ConcreteSubject.notify (s : ConcreteSubject) : ConcreteSubject × List Event :=
  let r := notifyFrom s s.observers
  (r.1, Event.log "Subject: Notifying observers..." :: r.2)

/-- `ConcreteSubject.someBusinessLogic`: log, assign
`this.state = Math.floor(Math.random() * (10 + 1))` (the random draw
`Math.random()` is the parameter `r`), log the new state, then call
`this.notify()`. -/
def ConcreteSubject.someBusinessLogic (s : ConcreteSubject) (r : ℚ) :
    ConcreteSubject × List Event :=
  let newState : Int := ⌊r * 11⌋
  let s1 : ConcreteSubject := { s with state := newState }
  let r2 := s1.notify
  (r2.1,
   Event.log "\nSubject: I\x27m doing something important." ::
   Event.log ("Subject: My state has just changed to: " ++ toString newState) ::
   r2.2)

/-- Extract an update invocation (observer and argument) from an event. -/
def Event.callOf : Event → Option (Observer × SubjectVal)
  | Event.updateCall o v => some (o, v)
  | Event.log _ => none

example :
    ((ConcreteSubject.mk 3 []).subscribe (Observer.mk 0 ObserverKind.A)).1.observers
      = [Observer.mk 0 ObserverKind.A] := by decide

example :
    ((ConcreteSubject.mk 3 [Observer.mk 0 ObserverKind.A]).subscribe
        (Observer.mk 0 ObserverKind.A)).1.observers
      = [Observer.mk 0 ObserverKind.A] := by decide

example :
    ((ConcreteSubject.mk 3 [Observer.mk 0 ObserverKind.A,
        Observer.mk 1 ObserverKind.B]).unsubscribe (Observer.mk 0 ObserverKind.A)).1.observers
      = [Observer.mk 1 ObserverKind.B] := by decide

example :
    ((ConcreteSubject.mk 3 [Observer.mk 0 ObserverKind.A,
        Observer.mk 1 ObserverKind.B]).notify).2
      = [Event.log "Subject: Notifying observers...",
         Event.updateCall (Observer.mk 0 ObserverKind.A)
           (SubjectVal.concrete (ConcreteSubject.mk 3
             [Observer.mk 0 ObserverKind.A, Observer.mk 1 ObserverKind.B])),
         Event.log "ConcreteObserverA: Reacted to the event. New value: 3",
         Event.updateCall (Observer.mk 1 ObserverKind.B)
           (SubjectVal.concrete (ConcreteSubject.mk 3
             [Observer.mk 0 ObserverKind.A, Observer.mk 1 ObserverKind.B]))] := by
  decide

/-! ### Helper lemmas -/

/-- The body of either observer class never assigns to the subject it
receives: `update` returns its argument. -/
theorem update_fst (o : Observer) (v : SubjectVal) : (o.update v).1 = v := by
  rcases o with ⟨i, k⟩
  cases k <;> cases v <;> simp [Observer.update] <;> split <;> rfl

/-- Everything an observer's `update` prints is a log line, never a
further update invocation. -/
theorem update_trace_no_calls (o : Observer) (v : SubjectVal) :
    (o.update v).2.filterMap Event.callOf = [] := by
  rcases o with ⟨i, k⟩
  cases k <;> cases v <;> simp [Observer.update] <;> split <;> simp [Event.callOf]

theorem notifyFrom_fst (l : List Observer) (s : ConcreteSubject) :
    (notifyFrom s l).1 = s := by
  induction l generalizing s with
  | nil => rfl
  | cons o rest ih =>
      simp only [notifyFrom, update_fst]
      exact ih s

/-- The update invocations produced by the notification loop are exactly
the listed observers, in order, each passed the subject itself. -/
theorem notifyFrom_calls (l : List Observer) (s : ConcreteSubject) :
    (notifyFrom s l).2.filterMap Event.callOf
      = l.map (fun o => (o, SubjectVal.concrete s)) := by
  induction l generalizing s with
  | nil => rfl
  | cons o rest ih =>
      simp only [notifyFrom, update_fst, List.map_cons]
      simp [Event.callOf, List.filterMap_append, update_trace_no_calls, ih s]

/-! ### Claim theorems -/

/-- C1: for every subject, `notify()` invokes `update(self)` exactly once
on each currently subscribed observer, in subscription order, and on no
other observer: the sequence of update invocations in the trace of
`notify` is exactly the observer list, in order, each invocation passing
the subject itself. -/
theorem notify_updates_each_subscriber_once_in_order (s : ConcreteSubject) :
    (s.notify).2.filterMap Event.callOf
      = s.observers.map (fun o => (o, SubjectVal.concrete s)) := by
  simp [ConcreteSubject.notify, Event.callOf, notifyFrom_calls]

/-- C2: an observer of class `ConcreteObserverA` emits a reaction trace
iff `state < 7`, one of class `ConcreteObserverB` iff `state >= 7`, and
for every state (in particular every state in `[0, 10]`) exactly one of
the two reacts: no overlap and no gap. -/
theorem observerA_observerB_partition (ia ib : Nat) (s : ConcreteSubject) :
    (((Observer.mk ia ObserverKind.A).update (SubjectVal.concrete s)).2 ≠ []
        ↔ s.state < 7)
  ∧ (((Observer.mk ib ObserverKind.B).update (SubjectVal.concrete s)).2 ≠ []
        ↔ s.state ≥ 7)
  ∧ ((((Observer.mk ia ObserverKind.A).update (SubjectVal.concrete s)).2 ≠ []
        ∧ ¬ ((Observer.mk ib ObserverKind.B).update (SubjectVal.concrete s)).2 ≠ [])
     ∨ (((Observer.mk ib ObserverKind.B).update (SubjectVal.concrete s)).2 ≠ []
        ∧ ¬ ((Observer.mk ia ObserverKind.A).update (SubjectVal.concrete s)).2 ≠ [])) := by
  refine ⟨?_, ?_, ?_⟩
  · simp only [Observer.update]
    split <;> simp <;> omega
  · simp only [Observer.update]
    split <;> simp <;> omega
  · simp only [Observer.update]
    rcases lt_or_le s.state 7 with h | h
    · left
      rw [if_pos h, if_neg (show ¬ s.state ≥ 7 by omega)]
      simp
    · right
      rw [if_pos (show s.state ≥ 7 by omega), if_neg (show ¬ s.state < 7 by omega)]
      simp

/-- C7: calling `update` of either observer class leaves the subject
entirely unchanged (hence its state and subscriber sequence), and the
observers carry no state of their own: two observer instances of the
same class produce identical output on every subject. -/
theorem observers_pure_and_stateless (o o2 : Observer) (v : SubjectVal)
    (h : o.kind = o2.kind) :
    (o.update v).1 = v ∧ (o.update v).2 = (o2.update v).2 := by
  refine ⟨update_fst o v, ?_⟩
  rcases o with ⟨i, k⟩
  rcases o2 with ⟨i2, k2⟩
  cases h
  rfl

theorem observers_pure_and_stateless_witness :
    (Observer.mk 0 ObserverKind.A).kind = (Observer.mk 5 ObserverKind.A).kind
  ∧ ((Observer.mk 0 ObserverKind.A).update
        (SubjectVal.concrete (ConcreteSubject.mk 3 []))).1
      = SubjectVal.concrete (ConcreteSubject.mk 3 [])
  ∧ ((Observer.mk 0 ObserverKind.A).update
        (SubjectVal.concrete (ConcreteSubject.mk 3 []))).2
      = ((Observer.mk 5 ObserverKind.A).update
        (SubjectVal.concrete (ConcreteSubject.mk 3 []))).2 := by
  have h := observers_pure_and_stateless (Observer.mk 0 ObserverKind.A)
    (Observer.mk 5 ObserverKind.A)
    (SubjectVal.concrete (ConcreteSubject.mk 3 [])) (by decide)
  exact ⟨by decide, h.1, h.2⟩

/-- C9: on any value implementing `Subject` that is not an instance of
`ConcreteSubject`, `update` of either observer class emits no trace and
has no effect, whatever data the value carries. -/
theorem update_on_foreign_subject_is_noop (o : Observer) (d : Int) :
    o.update (SubjectVal.foreign d) = (SubjectVal.foreign d, []) := by
  rcases o with ⟨i, k⟩
  cases k <;> rfl

/-- C10: `subscribe`, `unsubscribe` and `notify` never change the
subject's `state` field, and `someBusinessLogic` never changes the
subscriber sequence. -/
theorem frame_state_and_observers (s : ConcreteSubject) (o : Observer) (r : ℚ) :
    (s.subscribe o).1.state = s.state
  ∧ (s.unsubscribe o).1.state = s.state
  ∧ (s.notify).1.state = s.state
  ∧ (s.someBusinessLogic r).1.observers = s.observers := by
  refine ⟨?_, ?_, ?_, ?_⟩
  · rw [ConcreteSubject.subscribe]
    split <;> rfl
  · rw [ConcreteSubject.unsubscribe]
    rcases hfi : s.observers.findIdx? (fun x => x == o) with _ | i <;> simp
  · simp [ConcreteSubject.notify, notifyFrom_fst]
  · simp [ConcreteSubject.someBusinessLogic, ConcreteSubject.notify, notifyFrom_fst]

/-- Applying a sequence of `subscribe` calls to a subject (the traces are
discarded; only the resulting subject is kept). -/
def subscribeAll (s : ConcreteSubject) (calls : List Observer) : ConcreteSubject :=
  calls.foldl (fun t o => (t.subscribe o).1) s

theorem subscribe_mem_eq (s : ConcreteSubject) (o : Observer)
    (h : o ∈ s.observers) :
    s.subscribe o = (s, [Event.log "Subject: Observer has been Subscribed already."]) := by
  simp [ConcreteSubject.subscribe, h]

theorem subscribe_not_mem_eq (s : ConcreteSubject) (o : Observer)
    (h : o ∉ s.observers) :
    s.subscribe o = ({ s with observers := s.observers ++ [o] },
      [Event.log "Subject: Subscribed an observer."]) := by
  simp [ConcreteSubject.subscribe, h]

theorem subscribe_nodup (s : ConcreteSubject) (o : Observer)
    (h : s.observers.Nodup) : ((s.subscribe o).1).observers.Nodup := by
  by_cases hm : o ∈ s.observers
  · rw [subscribe_mem_eq s o hm]
    exact h
  · rw [subscribe_not_mem_eq s o hm]
    exact List.nodup_append.mpr ⟨h, List.nodup_singleton o, by simpa using hm⟩

theorem subscribeAll_nodup (calls : List Observer) (s : ConcreteSubject)
    (h : s.observers.Nodup) : (subscribeAll s calls).observers.Nodup := by
  induction calls generalizing s with
  | nil => exact h
  | cons o rest ih =>
      simp only [subscribeAll, List.foldl_cons]
      exact ih _ (subscribe_nodup s o h)

theorem unsubscribe_not_mem_eq (s : ConcreteSubject) (o : Observer)
    (h : o ∉ s.observers) :
    s.unsubscribe o = (s, [Event.log "Subject: Nonexistent observer."]) := by
  have hf : s.observers.findIdx? (fun x => x == o) = none := by
    rw [List.findIdx?_eq_none_iff]
    intro x hx
    simp only [beq_eq_false_iff_ne]
    exact fun hxo => h (hxo ▸ hx)
  rw [ConcreteSubject.unsubscribe, hf]

/-- `indexOf` finds the first occurrence: on `l1 ++ o :: l2` with
`o ∉ l1` it yields the index `l1.length` (shifted by the start index). -/
theorem findIdx?_first_occurrence (o : Observer) (l2 l1 : List Observer) (i : Nat)
    (h : o ∉ l1) :
    (l1 ++ o :: l2).findIdx? (fun x => x == o) i = some (i + l1.length) := by
  induction l1 generalizing i with
  | nil => simp [List.findIdx?_cons]
  | cons x xs ih =>
      have hxo : (x == o) = false := by
        simp only [beq_eq_false_iff_ne]
        intro hx
        exact h (hx ▸ List.mem_cons_self x xs)
      have hrest : o ∉ xs := fun hm => h (List.mem_cons_of_mem x hm)
      rw [List.cons_append, List.findIdx?_cons, hxo]
      simp only [Bool.false_eq_true, if_false]
      rw [ih (i + 1) hrest]
      congr 1
      simp only [List.length_cons]
      omega

theorem eraseIdx_append_length (o : Observer) (l2 l1 : List Observer) :
    (l1 ++ o :: l2).eraseIdx l1.length = l1 ++ l2 := by
  induction l1 with
  | nil => simp
  | cons x xs ih => simpa using ih

/-- C3: starting from any duplicate-free observer list, any sequence of
`subscribe` calls keeps the list duplicate-free; a `subscribe` with an
already-present observer leaves the subject unchanged and emits only the
diagnostic, and a `subscribe` with a new observer appends it at the end
of the sequence. -/
theorem subscribe_keeps_each_observer_at_most_once (s : ConcreteSubject)
    (o : Observer) (calls : List Observer) (h : s.observers.Nodup) :
    (subscribeAll s calls).observers.Nodup
  ∧ (o ∈ s.observers →
      s.subscribe o = (s, [Event.log "Subject: Observer has been Subscribed already."]))
  ∧ (o ∉ s.observers →
      s.subscribe o = ({ s with observers := s.observers ++ [o] },
        [Event.log "Subject: Subscribed an observer."])) :=
  ⟨subscribeAll_nodup calls s h, subscribe_mem_eq s o, subscribe_not_mem_eq s o⟩

theorem subscribe_keeps_each_observer_at_most_once_witness :
    (ConcreteSubject.mk 0 [Observer.mk 0 ObserverKind.A]).observers.Nodup
  ∧ (subscribeAll (ConcreteSubject.mk 0 [Observer.mk 0 ObserverKind.A])
      [Observer.mk 0 ObserverKind.A, Observer.mk 1 ObserverKind.B,
       Observer.mk 0 ObserverKind.A]).observers.Nodup
  ∧ Observer.mk 0 ObserverKind.A
      ∈ (ConcreteSubject.mk 0 [Observer.mk 0 ObserverKind.A]).observers
  ∧ (ConcreteSubject.mk 0 [Observer.mk 0 ObserverKind.A]).subscribe
      (Observer.mk 0 ObserverKind.A)
      = (ConcreteSubject.mk 0 [Observer.mk 0 ObserverKind.A],
         [Event.log "Subject: Observer has been Subscribed already."]) :=
  ⟨by decide,
   (subscribe_keeps_each_observer_at_most_once
      (ConcreteSubject.mk 0 [Observer.mk 0 ObserverKind.A])
      (Observer.mk 0 ObserverKind.A)
      [Observer.mk 0 ObserverKind.A, Observer.mk 1 ObserverKind.B,
       Observer.mk 0 ObserverKind.A] (by decide)).1,
   by decide,
   (subscribe_keeps_each_observer_at_most_once
      (ConcreteSubject.mk 0 [Observer.mk 0 ObserverKind.A])
      (Observer.mk 0 ObserverKind.A) [] (by decide)).2.1 (by decide)⟩

/-- C4: unsubscribing an observer that is not in the subscriber sequence
leaves the subject unchanged and emits only the diagnostic trace. -/
theorem unsubscribe_absent_is_noop (s : ConcreteSubject) (o : Observer)
    (h : o ∉ s.observers) :
    s.unsubscribe o = (s, [Event.log "Subject: Nonexistent observer."]) :=
  unsubscribe_not_mem_eq s o h

theorem unsubscribe_absent_is_noop_witness :
    Observer.mk 1 ObserverKind.B
      ∉ (ConcreteSubject.mk 0 [Observer.mk 0 ObserverKind.A]).observers
  ∧ (ConcreteSubject.mk 0 [Observer.mk 0 ObserverKind.A]).unsubscribe
      (Observer.mk 1 ObserverKind.B)
      = (ConcreteSubject.mk 0 [Observer.mk 0 ObserverKind.A],
         [Event.log "Subject: Nonexistent observer."]) :=
  ⟨by decide,
   unsubscribe_absent_is_noop (ConcreteSubject.mk 0 [Observer.mk 0 ObserverKind.A])
     (Observer.mk 1 ObserverKind.B) (by decide)⟩

/-- C5: when the subscriber sequence contains the observer, `unsubscribe`
removes exactly the first occurrence (matched by identity) and keeps all
other entries in their original relative order. -/
theorem unsubscribe_removes_first_occurrence (s : ConcreteSubject) (o : Observer)
    (l1 l2 : List Observer) (hsplit : s.observers = l1 ++ o :: l2)
    (hfirst : o ∉ l1) :
    (s.unsubscribe o).1.observers = l1 ++ l2
  ∧ (s.unsubscribe o).2 = [Event.log "Subject: Unsubscribed an observer."] := by
  have hidx : s.observers.findIdx? (fun x => x == o) = some l1.length := by
    rw [hsplit]
    simpa using findIdx?_first_occurrence o l2 l1 0 hfirst
  rw [ConcreteSubject.unsubscribe, hidx]
  constructor
  · simp only []
    rw [hsplit, eraseIdx_append_length]
  · rfl

theorem unsubscribe_removes_first_occurrence_witness :
    (ConcreteSubject.mk 0 [Observer.mk 0 ObserverKind.A, Observer.mk 1 ObserverKind.B,
        Observer.mk 2 ObserverKind.A]).observers
      = [Observer.mk 0 ObserverKind.A] ++ Observer.mk 1 ObserverKind.B ::
          [Observer.mk 2 ObserverKind.A]
  ∧ Observer.mk 1 ObserverKind.B ∉ [Observer.mk 0 ObserverKind.A]
  ∧ ((ConcreteSubject.mk 0 [Observer.mk 0 ObserverKind.A, Observer.mk 1 ObserverKind.B,
        Observer.mk 2 ObserverKind.A]).unsubscribe (Observer.mk 1 ObserverKind.B)).1.observers
      = [Observer.mk 0 ObserverKind.A] ++ [Observer.mk 2 ObserverKind.A]
  ∧ ((ConcreteSubject.mk 0 [Observer.mk 0 ObserverKind.A, Observer.mk 1 ObserverKind.B,
        Observer.mk 2 ObserverKind.A]).unsubscribe (Observer.mk 1 ObserverKind.B)).2
      = [Event.log "Subject: Unsubscribed an observer."] := by
  have h := unsubscribe_removes_first_occurrence
    (ConcreteSubject.mk 0 [Observer.mk 0 ObserverKind.A, Observer.mk 1 ObserverKind.B,
      Observer.mk 2 ObserverKind.A])
    (Observer.mk 1 ObserverKind.B)
    [Observer.mk 0 ObserverKind.A] [Observer.mk 2 ObserverKind.A]
    (by decide) (by decide)
  exact ⟨by decide, by decide, h.1, h.2⟩

/-- C6: `someBusinessLogic()` assigns `state` the value
`Math.floor(Math.random() * 11)`, an integer in `[0, 10]` for every
possible draw, every integer in `[0, 10]` being attainable by some draw,
and then calls `notify()` (its result and trace are those of `notify`
on the subject with the freshly drawn state, after the two log lines). -/
theorem someBusinessLogic_draws_in_range_then_notifies (s : ConcreteSubject)
    (r : ℚ) (h0 : 0 ≤ r) (h1 : r < 1) :
    0 ≤ (⌊r * 11⌋ : Int)
  ∧ (⌊r * 11⌋ : Int) ≤ 10
  ∧ s.someBusinessLogic r =
      ((({ s with state := ⌊r * 11⌋ } : ConcreteSubject).notify).1,
       Event.log "\nSubject: I\x27m doing something important." ::
       Event.log ("Subject: My state has just changed to: "
          ++ toString (⌊r * 11⌋ : Int)) ::
       (({ s with state := ⌊r * 11⌋ } : ConcreteSubject).notify).2)
  ∧ (∀ k : Int, 0 ≤ k → k ≤ 10 → ∃ q : ℚ, 0 ≤ q ∧ q < 1 ∧ (⌊q * 11⌋ : Int) = k) := by
  refine ⟨?_, ?_, rfl, ?_⟩
  · exact Int.floor_nonneg.mpr (mul_nonneg h0 (by norm_num))
  · have h11 : (⌊r * 11⌋ : Int) < 11 := by
      apply Int.floor_lt.mpr
      push_cast
      nlinarith
    omega
  · intro k hk0 hk10
    refine ⟨(k : ℚ) / 11, div_nonneg (by exact_mod_cast hk0) (by norm_num), ?_, ?_⟩
    · rw [div_lt_one (by norm_num)]
      have hc : (k : ℚ) ≤ 10 := by exact_mod_cast hk10
      linarith
    · rw [div_mul_cancel₀ _ (by norm_num : (11 : ℚ) ≠ 0)]
      exact Int.floor_intCast k

theorem someBusinessLogic_draws_in_range_then_notifies_witness :
    0 ≤ (1 / 2 : ℚ)
  ∧ (1 / 2 : ℚ) < 1
  ∧ (0 ≤ (⌊(1 / 2 : ℚ) * 11⌋ : Int)
     ∧ (⌊(1 / 2 : ℚ) * 11⌋ : Int) ≤ 10
     ∧ (ConcreteSubject.mk 0 []).someBusinessLogic (1 / 2) =
         ((({ ConcreteSubject.mk 0 [] with state := ⌊(1 / 2 : ℚ) * 11⌋ }
              : ConcreteSubject).notify).1,
          Event.log "\nSubject: I\x27m doing something important." ::
          Event.log ("Subject: My state has just changed to: "
             ++ toString (⌊(1 / 2 : ℚ) * 11⌋ : Int)) ::
          (({ ConcreteSubject.mk 0 [] with state := ⌊(1 / 2 : ℚ) * 11⌋ }
              : ConcreteSubject).notify).2)
     ∧ (∀ k : Int, 0 ≤ k → k ≤ 10 →
          ∃ q : ℚ, 0 ≤ q ∧ q < 1 ∧ (⌊q * 11⌋ : Int) = k)) :=
  ⟨by norm_num, by norm_num,
   someBusinessLogic_draws_in_range_then_notifies (ConcreteSubject.mk 0 [])
     (1 / 2) (by norm_num) (by norm_num)⟩

/-- C8: no operation of the subject aborts: `subscribe`, `unsubscribe`,
`notify` (with the two provided observer classes) and `someBusinessLogic`
produce a result on every input, and the duplicate-subscribe and
unknown-unsubscribe conditions change nothing and report themselves only
through a trace line. -/
theorem operations_never_abort (s : ConcreteSubject) (o : Observer) (r : ℚ) :
    (o ∈ s.observers →
      s.subscribe o = (s, [Event.log "Subject: Observer has been Subscribed already."]))
  ∧ (o ∉ s.observers →
      s.unsubscribe o = (s, [Event.log "Subject: Nonexistent observer."]))
  ∧ (∃ p, s.subscribe o = p)
  ∧ (∃ p, s.unsubscribe o = p)
  ∧ (∃ p, s.notify = p)
  ∧ (∃ p, s.someBusinessLogic r = p) :=
  ⟨subscribe_mem_eq s o, unsubscribe_not_mem_eq s o,
   ⟨_, rfl⟩, ⟨_, rfl⟩, ⟨_, rfl⟩, ⟨_, rfl⟩⟩

theorem operations_never_abort_witness :
    Observer.mk 0 ObserverKind.A
      ∈ (ConcreteSubject.mk 0 [Observer.mk 0 ObserverKind.A]).observers
  ∧ (ConcreteSubject.mk 0 [Observer.mk 0 ObserverKind.A]).subscribe
      (Observer.mk 0 ObserverKind.A)
      = (ConcreteSubject.mk 0 [Observer.mk 0 ObserverKind.A],
         [Event.log "Subject: Observer has been Subscribed already."])
  ∧ Observer.mk 1 ObserverKind.B
      ∉ (ConcreteSubject.mk 0 [Observer.mk 0 ObserverKind.A]).observers
  ∧ (ConcreteSubject.mk 0 [Observer.mk 0 ObserverKind.A]).unsubscribe
      (Observer.mk 1 ObserverKind.B)
      = (ConcreteSubject.mk 0 [Observer.mk 0 ObserverKind.A],
         [Event.log "Subject: Nonexistent observer."]) :=
  ⟨by decide,
   (operations_never_abort (ConcreteSubject.mk 0 [Observer.mk 0 ObserverKind.A])
      (Observer.mk 0 ObserverKind.A) 0).1 (by decide),
   by decide,
   (operations_never_abort (ConcreteSubject.mk 0 [Observer.mk 0 ObserverKind.A])
      (Observer.mk 1 ObserverKind.B) 0).2.1 (by decide)⟩
